import Mathlib

/-!
Verification of the garden client connection layer against its specification.

The connection implementation itself ships outside the covered sources (only
its test suite is present), so every operation below is modelled from the
specification's description of the connection layer (request encoding, the
RPC dispatcher error model, the NetOut rule encoding, the process-session
reader and writer loops), kept consistent with the behaviours pinned by the
test suite.

Conventions: Go pointer-typed ("optional") fields become `Option`; byte
strings become `String`; unsigned integers become `Nat`; a Go
`(result, error)` pair becomes `Except`.
-/

/-! ## RPC dispatcher error model -/

/-- Modelled from the spec: the structured error `connection.Error` (the
implementation is not among the covered sources).  "A non-2xx response
produces a structured error with two fields: numeric status code and the raw
response body as message." -/
structure Error where
  statusCode : Nat
  message : String
deriving DecidableEq, Repr

/-- An HTTP response as the dispatcher sees it: status code and raw body. -/
structure HttpResponse where
  status : Nat
  body : String
deriving DecidableEq, Repr

def is2xx (s : Nat) : Bool := 200 ≤ s && s < 300

/-- Modelled from the spec: the shared response check of the RPC dispatcher
(implementation not among the covered sources).  "2xx = success; 4xx/5xx
surface as errors carrying (code, raw body)." -/
def checkStatus (r : HttpResponse) : Option Error :=
  if is2xx r.status then none else some ⟨r.status, r.body⟩

/-- Modelled from the spec: `Destroy(handle)` issues `DELETE /containers/{h}`
and returns ok or the structured dispatcher error for the response it got. -/
def Destroy (handle : String) (r : HttpResponse) : Option Error :=
  checkStatus r

/-- Modelled from the spec: `Ping` issues `GET /ping` and returns ok or the
structured dispatcher error. -/
def Ping (r : HttpResponse) : Option Error :=
  checkStatus r

/-! ## Limits operations -/

/-- garden.MemoryLimits. -/
structure MemoryLimits where
  limitInBytes : Nat
deriving DecidableEq, Repr

/-- garden.CPULimits. -/
structure CPULimits where
  limitInShares : Nat
deriving DecidableEq, Repr

/-- garden.BandwidthLimits. -/
structure BandwidthLimits where
  rateInBytesPerSecond : Nat
  burstRateInBytesPerSecond : Nat
deriving DecidableEq, Repr

/-- garden.DiskLimits. -/
structure DiskLimits where
  blockSoft : Nat
  blockHard : Nat
  inodeSoft : Nat
  inodeHard : Nat
  byteSoft : Nat
  byteHard : Nat
deriving DecidableEq, Repr

/-- Wire message protocol.LimitMemoryRequest (proto2 optional fields). -/
structure LimitMemoryRequest where
  handle : Option String
  limitInBytes : Option Nat
deriving DecidableEq, Repr

/-- Wire message protocol.LimitMemoryResponse. -/
structure LimitMemoryResponse where
  limitInBytes : Option Nat
deriving DecidableEq, Repr

/-- Wire message protocol.LimitCpuRequest. -/
structure LimitCpuRequest where
  handle : Option String
  limitInShares : Option Nat
deriving DecidableEq, Repr

/-- Wire message protocol.LimitCpuResponse. -/
structure LimitCpuResponse where
  limitInShares : Option Nat
deriving DecidableEq, Repr

/-- Wire message protocol.LimitBandwidthRequest. -/
structure LimitBandwidthRequest where
  handle : Option String
  rate : Option Nat
  burst : Option Nat
deriving DecidableEq, Repr

/-- Wire message protocol.LimitBandwidthResponse. -/
structure LimitBandwidthResponse where
  rate : Option Nat
  burst : Option Nat
deriving DecidableEq, Repr

/-- Wire message protocol.LimitDiskRequest. -/
structure LimitDiskRequest where
  handle : Option String
  blockSoft : Option Nat
  blockHard : Option Nat
  inodeSoft : Option Nat
  inodeHard : Option Nat
  byteSoft : Option Nat
  byteHard : Option Nat
deriving DecidableEq, Repr

/-- Wire message protocol.LimitDiskResponse. -/
structure LimitDiskResponse where
  blockSoft : Option Nat
  blockHard : Option Nat
  inodeSoft : Option Nat
  inodeHard : Option Nat
  byteSoft : Option Nat
  byteHard : Option Nat
deriving DecidableEq, Repr

/-- Modelled from the spec: `LimitMemory(handle, limits)` (implementation
not among the covered sources).  It sends a request built from the caller's
values and returns the effective limits decoded from the server's response
("the set operation's returned effective limits are exactly the values in
the response, not the values in the request").  The result pairs the request
message sent with the value returned to the caller; the server's response is
a parameter. -/
def LimitMemory (handle : String) (limits : MemoryLimits)
    (resp : LimitMemoryResponse) : LimitMemoryRequest × MemoryLimits :=
  (⟨some handle, some limits.limitInBytes⟩,
   ⟨resp.limitInBytes.getD 0⟩)

/-- Modelled from the spec: `LimitCPU(handle, limits)`; see `LimitMemory`. -/
def LimitCPU (handle : String) (limits : CPULimits)
    (resp : LimitCpuResponse) : LimitCpuRequest × CPULimits :=
  (⟨some handle, some limits.limitInShares⟩,
   ⟨resp.limitInShares.getD 0⟩)

/-- Modelled from the spec: `LimitBandwidth(handle, limits)`; see
`LimitMemory`. -/
def LimitBandwidth (handle : String) (limits : BandwidthLimits)
    (resp : LimitBandwidthResponse) : LimitBandwidthRequest × BandwidthLimits :=
  (⟨some handle, some limits.rateInBytesPerSecond, some limits.burstRateInBytesPerSecond⟩,
   ⟨resp.rate.getD 0, resp.burst.getD 0⟩)

/-- Modelled from the spec: `LimitDisk(handle, limits)`; see `LimitMemory`. -/
def LimitDisk (handle : String) (limits : DiskLimits)
    (resp : LimitDiskResponse) : LimitDiskRequest × DiskLimits :=
  (⟨some handle, some limits.blockSoft, some limits.blockHard,
    some limits.inodeSoft, some limits.inodeHard,
    some limits.byteSoft, some limits.byteHard⟩,
   ⟨resp.blockSoft.getD 0, resp.blockHard.getD 0,
    resp.inodeSoft.getD 0, resp.inodeHard.getD 0,
    resp.byteSoft.getD 0, resp.byteHard.getD 0⟩)

/-! ## NetOut rule encoding -/

/-- Wire enum protocol.NetOutRequest_Protocol. -/
inductive NetOutProtocol where
  | all
  | tcp
  | udp
  | icmp
  | tcpudp
deriving DecidableEq, Repr

/-- garden.IPRange; the two `net.IP` endpoints are modelled by their
canonical textual representation. -/
structure IPRange where
  start : String
  stop : String
deriving DecidableEq, Repr

/-- garden.PortRange (uint16 endpoints). -/
structure PortRange where
  start : Nat
  stop : Nat
deriving DecidableEq, Repr

/-- garden.ICMPControl: a type and an optional code. -/
structure ICMPControl where
  type : Nat
  code : Option Int
deriving DecidableEq, Repr

/-- garden.NetOutRule.  `garden.Protocol` is an integer enum (ALL=0, TCP=1,
UDP=2, ICMP=3, TCPUDP=4), so it is modelled as a bare `Nat`, allowing
out-of-range values such as 44. -/
structure NetOutRule where
  protocol : Nat
  networks : List IPRange
  ports : List PortRange
  icmps : Option ICMPControl
  log : Bool
deriving DecidableEq, Repr

/-- The zero value `garden.NetOutRule{}`. -/
def zeroNetOutRule : NetOutRule :=
  { protocol := 0, networks := [], ports := [], icmps := none, log := false }

/-- Wire message protocol.NetOutRequest_IPRange. -/
structure WireIPRange where
  start : Option String
  stop : Option String
deriving DecidableEq, Repr

/-- Wire message protocol.NetOutRequest_PortRange (uint32 fields). -/
structure WirePortRange where
  start : Option Nat
  stop : Option Nat
deriving DecidableEq, Repr

/-- Wire message protocol.NetOutRequest_ICMPControl. -/
structure WireICMPControl where
  type : Option Nat
  code : Option Int
deriving DecidableEq, Repr

/-- Wire message protocol.NetOutRequest. -/
structure NetOutRequest where
  handle : Option String
  networks : Option (List WireIPRange)
  ports : Option (List WirePortRange)
  protocol : Option NetOutProtocol
  icmps : Option WireICMPControl
  log : Option Bool
deriving DecidableEq, Repr

def ipRangeToWire (r : IPRange) : WireIPRange :=
  ⟨some r.start, some r.stop⟩

def portRangeToWire (r : PortRange) : WirePortRange :=
  ⟨some r.start, some r.stop⟩

def icmpToWire (c : ICMPControl) : WireICMPControl :=
  ⟨some c.type, c.code⟩

/-- Modelled from the spec: the mapping from the integer `garden.Protocol`
to the wire enum; a value outside {ALL, TCP, UDP, ICMP, TCPUDP} has no
image. -/
def convertProtocol : Nat → Option NetOutProtocol
  | 0 => some NetOutProtocol.all
  | 1 => some NetOutProtocol.tcp
  | 2 => some NetOutProtocol.udp
  | 3 => some NetOutProtocol.icmp
  | 4 => some NetOutProtocol.tcpudp
  | _ => none

/-- Modelled from the spec: `NetOut(handle, rule)` rule encoding
(implementation not among the covered sources).  "If protocol is outside
the enumerated set, fail synchronously with error `invalid protocol`
without contacting the server.  A zero-length network list encodes as
absent (null), not as an empty array; likewise for ports and ICMP
control."  An `Except.error` result models the synchronous failure: no
request message exists to be sent. -/
def NetOut (handle : String) (rule : NetOutRule) : Except String NetOutRequest :=
  match convertProtocol rule.protocol with
  | none => Except.error "invalid protocol"
  | some p => Except.ok
      { handle := some handle
      , networks := if rule.networks.isEmpty then none
                    else some (rule.networks.map ipRangeToWire)
      , ports := if rule.ports.isEmpty then none
                 else some (rule.ports.map portRangeToWire)
      , protocol := some p
      , icmps := rule.icmps.map icmpToWire
      , log := some rule.log }

theorem convertProtocol_out_of_range (m : Nat) : convertProtocol (m + 5) = none := rfl

/-! ## Process session data model -/

/-- Wire enum protocol.ProcessPayload_Source. -/
inductive Source where
  | stdin
  | stdout
  | stderr
deriving DecidableEq, Repr

/-- Wire enum protocol.ProcessPayload_Signal (garden.SignalTerminate /
garden.SignalKill). -/
inductive Signal where
  | terminate
  | kill
deriving DecidableEq, Repr

/-- Window-size record {columns, rows} (protocol.TTY_WindowSize and
garden.WindowSize share this shape). -/
structure WindowSize where
  columns : Nat
  rows : Nat
deriving DecidableEq, Repr

/-- TTY record with an optional initial window size (protocol.TTY and
garden.TTYSpec share this shape). -/
structure TTY where
  windowSize : Option WindowSize
deriving DecidableEq, Repr

/-- Wire message protocol.ProcessPayload: the multiplexed frame used on
process streams.  Every field is proto2-optional. -/
structure ProcessPayload where
  processId : Option Nat := none
  source : Option Source := none
  data : Option String := none
  signal : Option Signal := none
  tty : Option TTY := none
  exitStatus : Option Nat := none
  error : Option String := none
deriving DecidableEq, Repr

/-- The two ways the downstream transport can end without a terminal frame:
clean end-of-stream, or a frame that fails to decode.  The reader treats
both alike. -/
inductive StreamEnd where
  | eof
  | decodeFailure
deriving DecidableEq, Repr

/-- The stdout payload a frame delivers, when it is a stdout data frame. -/
def stdoutData (f : ProcessPayload) : Option String :=
  match f.source, f.data with
  | some Source.stdout, some d => some d
  | _, _ => none

/-- The stderr payload a frame delivers, when it is a stderr data frame. -/
def stderrData (f : ProcessPayload) : Option String :=
  match f.source, f.data with
  | some Source.stderr, some d => some d
  | _, _ => none

/-- The terminal outcome carried by a frame, if any: an error string
(dominant, per the spec's design note) or an exit status. -/
def terminalResult (f : ProcessPayload) : Option (Except String Nat) :=
  match f.error with
  | some msg => some (Except.error msg)
  | none =>
    match f.exitStatus with
    | some s => some (Except.ok s)
    | none => none

/-- The frames the downstream reader actually decodes: everything up to and
including the first terminal frame (frames after it are never read). -/
def observed : List ProcessPayload → List ProcessPayload
  | [] => []
  | f :: rest =>
    match terminalResult f with
    | some _ => [f]
    | none => f :: observed rest

def connClosedMsg : String := "connection closed before exit status received"

/-- The outcome of a process session: the payloads written to the stdout
and stderr sinks, in order, and the result Wait resolves to — `Except.ok
code` models Go's `(code, nil)`, `Except.error msg` a non-nil error. -/
structure SessionOutcome where
  stdoutWrites : List String
  stderrWrites : List String
  waitResult : Except String Nat
deriving Repr

/-- Modelled from the spec: the downstream reader loop of a process session
(implementation not among the covered sources).  For each decoded frame it
writes stdout/stderr payloads to the corresponding sink, resolves Wait with
the frame's error string or exit status if the frame is terminal, and on
end-of-stream or decode failure before a terminal frame resolves Wait with
the error "connection closed before exit status received". -/
def readerLoop (e : StreamEnd) : List ProcessPayload → SessionOutcome
  | [] => ⟨[], [], Except.error connClosedMsg⟩
  | f :: rest =>
    match terminalResult f with
    | some r => ⟨(stdoutData f).toList, (stderrData f).toList, r⟩
    | none =>
      let t := readerLoop e rest
      ⟨(stdoutData f).toList ++ t.stdoutWrites,
       (stderrData f).toList ++ t.stderrWrites,
       t.waitResult⟩

/-- Modelled from the spec: session construction shared by Run and Attach
(implementation not among the covered sources).  The session's process id
is the process id field of the first downstream frame; the downstream
reader then consumes the stream.  A first frame carrying an error instead
of an id fails Run/Attach synchronously. -/
def processSession (frames : List ProcessPayload) (e : StreamEnd) :
    Except String (Nat × SessionOutcome) :=
  match frames with
  | [] => Except.error connClosedMsg
  | f :: _ =>
    match f.processId with
    | some pid => Except.ok (pid, readerLoop e frames)
    | none => Except.error (f.error.getD connClosedMsg)

/-! ## Run request construction -/

/-- Resource limits record, 15 proto2-optional fields
(garden.ResourceLimits and protocol.ResourceLimits share this shape). -/
structure ResourceLimits where
  as : Option Nat := none
  core : Option Nat := none
  cpu : Option Nat := none
  data : Option Nat := none
  fsize : Option Nat := none
  locks : Option Nat := none
  memlock : Option Nat := none
  msgqueue : Option Nat := none
  nice : Option Nat := none
  nofile : Option Nat := none
  nproc : Option Nat := none
  rss : Option Nat := none
  rtprio : Option Nat := none
  sigpending : Option Nat := none
  stack : Option Nat := none
deriving DecidableEq, Repr

/-- The zero value `garden.ResourceLimits{}`: no limit set. -/
def emptyResourceLimits : ResourceLimits := {}

/-- garden.ProcessSpec.  Go string fields are plain strings whose zero
value is `""`. -/
structure ProcessSpec where
  path : String := ""
  args : List String := []
  dir : String := ""
  privileged : Bool := false
  user : String := ""
  limits : ResourceLimits := {}
  tty : Option TTY := none
deriving DecidableEq, Repr

/-- The zero value `garden.ProcessSpec{}`. -/
def emptyProcessSpec : ProcessSpec := {}

/-- Wire message protocol.RunRequest. -/
structure RunRequest where
  handle : Option String
  path : Option String
  args : List String
  dir : Option String
  privileged : Option Bool
  user : Option String
  tty : Option TTY
  rlimits : Option ResourceLimits
deriving DecidableEq, Repr

/-- Modelled from the spec: how `Run` builds the RunRequest body from the
caller's ProcessSpec (implementation not among the covered sources).  The
working directory is optional and omitted when unspecified; the user field
and the rlimits record are always serialized, as the empty string and the
empty record when the spec leaves them unspecified. -/
def buildRunRequest (handle : String) (spec : ProcessSpec) : RunRequest :=
  { handle := some handle
  , path := some spec.path
  , args := spec.args
  , dir := if spec.dir = "" then none else some spec.dir
  , privileged := some spec.privileged
  , user := some spec.user
  , tty := spec.tty
  , rlimits := some spec.limits }

/-- A JSON-like value: non-process request bodies are serialized as one
textual JSON-like object per request. -/
inductive Json where
  | null
  | jstr (s : String)
  | jnum (n : Nat)
  | jbool (b : Bool)
  | jarr (xs : List Json)
  | jobj (fields : List (String × Json))

/-- A proto2-optional field serializes to nothing when absent and to one
key/value pair when present. -/
def optField (key : String) : Option Json → List (String × Json)
  | none => []
  | some v => [(key, v)]

/-- Serialization of the rlimits record: absent fields are omitted, so the
zero record serializes as the empty object. -/
def rlimitsJson (r : ResourceLimits) : Json :=
  Json.jobj
    (optField "as" (r.as.map Json.jnum) ++
     optField "core" (r.core.map Json.jnum) ++
     optField "cpu" (r.cpu.map Json.jnum) ++
     optField "data" (r.data.map Json.jnum) ++
     optField "fsize" (r.fsize.map Json.jnum) ++
     optField "locks" (r.locks.map Json.jnum) ++
     optField "memlock" (r.memlock.map Json.jnum) ++
     optField "msgqueue" (r.msgqueue.map Json.jnum) ++
     optField "nice" (r.nice.map Json.jnum) ++
     optField "nofile" (r.nofile.map Json.jnum) ++
     optField "nproc" (r.nproc.map Json.jnum) ++
     optField "rss" (r.rss.map Json.jnum) ++
     optField "rtprio" (r.rtprio.map Json.jnum) ++
     optField "sigpending" (r.sigpending.map Json.jnum) ++
     optField "stack" (r.stack.map Json.jnum))

def windowSizeJson (w : WindowSize) : Json :=
  Json.jobj [("columns", Json.jnum w.columns), ("rows", Json.jnum w.rows)]

def ttyJson (t : TTY) : Json :=
  Json.jobj (optField "window_size" (t.windowSize.map windowSizeJson))

/-- Modelled from the spec: the textual JSON-like serialization of the
RunRequest body (the encoder is not among the covered sources).  Absent
(`none`) fields are omitted; present fields are serialized even when they
hold a zero value such as the empty string. -/
def runRequestFields (r : RunRequest) : List (String × Json) :=
  optField "handle" (r.handle.map Json.jstr) ++
  optField "path" (r.path.map Json.jstr) ++
  (if r.args.isEmpty then []
   else [("args", Json.jarr (r.args.map Json.jstr))]) ++
  optField "dir" (r.dir.map Json.jstr) ++
  optField "privileged" (r.privileged.map Json.jbool) ++
  optField "user" (r.user.map Json.jstr) ++
  optField "tty" (r.tty.map ttyJson) ++
  optField "rlimits" (r.rlimits.map rlimitsJson)

def runRequestJson (r : RunRequest) : Json :=
  Json.jobj (runRequestFields r)

/-! ## Run, Attach and the upstream writer -/

/-- Modelled from the spec: `Run(handle, spec, io)` (implementation not
among the covered sources).  It sends the RunRequest built from the
caller's spec, upgrades the transport, and hands the downstream frames to
the shared session machinery.  The result pairs the request body sent with
the session Run returns (or the synchronous error). -/
def Run (handle : String) (spec : ProcessSpec)
    (frames : List ProcessPayload) (e : StreamEnd) :
    RunRequest × Except String (Nat × SessionOutcome) :=
  (buildRunRequest handle spec, processSession frames e)

/-- Modelled from the spec: `Attach(handle, processId, io)` (implementation
not among the covered sources).  It sends no body; it binds to an existing
session by id and hands the downstream frames to the shared session
machinery. -/
def Attach (handle : String) (processId : Nat)
    (frames : List ProcessPayload) (e : StreamEnd) :
    Except String (Nat × SessionOutcome) :=
  processSession frames e

/-- Modelled from the spec: the single upstream frame written by
`Signal(kind)` (implementation not among the covered sources): the process
id plus the signal discriminator. -/
def signalFrames (pid : Nat) (s : Signal) : List ProcessPayload :=
  [{ processId := some pid, signal := some s }]

/-- How the caller's stdin reader ends: normal end-of-stream, or a read
error. -/
inductive StdinEnd where
  | eof
  | readError
deriving DecidableEq, Repr

/-- A stdin data frame: ProcessPayload{id, source=stdin, data=chunk}. -/
def stdinFrame (pid : Nat) (d : String) : ProcessPayload :=
  { processId := some pid, source := some Source.stdin, data := some d }

/-- Modelled from the spec: the upstream stdin writer task (implementation
not among the covered sources).  It forwards each chunk read from the
caller's stdin reader as a stdin frame; on normal end-of-stream it then
sends a zero-length stdin frame as an explicit EOF marker; on a read error
it sends nothing further.  The result is the list of frames sent upstream,
in order. -/
def stdinWriter (pid : Nat) (chunks : List String) : StdinEnd → List ProcessPayload
  | StdinEnd.eof => chunks.map (stdinFrame pid) ++ [stdinFrame pid ""]
  | StdinEnd.readError => chunks.map (stdinFrame pid)

/-! ## Reader-loop lemmas -/

theorem readerLoop_closed (e : StreamEnd) :
    ∀ frames : List ProcessPayload,
      (∀ f ∈ frames, f.error = none ∧ f.exitStatus = none) →
      (readerLoop e frames).waitResult = Except.error connClosedMsg
  | [], _ => rfl
  | f :: rest, h => by
      have hf := h f (List.mem_cons_self f rest)
      have ht : terminalResult f = none := by
        simp [terminalResult, hf.1, hf.2]
      have ih := readerLoop_closed e rest (fun g hg => h g (List.mem_cons_of_mem f hg))
      simp [readerLoop, ht, ih]

theorem readerLoop_error_frame (e : StreamEnd) :
    ∀ (pre : List ProcessPayload) (ef : ProcessPayload)
      (post : List ProcessPayload) (msg : String),
      (∀ f ∈ pre, f.error = none ∧ f.exitStatus = none) →
      ef.error = some msg →
      (readerLoop e (pre ++ ef :: post)).waitResult = Except.error msg
  | [], ef, post, msg, _, herr => by
      have ht : terminalResult ef = some (Except.error msg) := by
        simp [terminalResult, herr]
      simp [readerLoop, ht]
  | f :: pre, ef, post, msg, h, herr => by
      have hf := h f (List.mem_cons_self f pre)
      have ht : terminalResult f = none := by
        simp [terminalResult, hf.1, hf.2]
      have ih := readerLoop_error_frame e pre ef post msg
        (fun g hg => h g (List.mem_cons_of_mem f hg)) herr
      simp [readerLoop, ht, ih]

theorem readerLoop_stdoutWrites (e : StreamEnd) :
    ∀ frames : List ProcessPayload,
      (readerLoop e frames).stdoutWrites = (observed frames).filterMap stdoutData
  | [] => rfl
  | f :: rest => by
      cases ht : terminalResult f with
      | some r =>
          simp only [readerLoop, observed, ht, List.filterMap_cons]
          cases stdoutData f <;> simp
      | none =>
          have ih := readerLoop_stdoutWrites e rest
          simp only [readerLoop, observed, ht, List.filterMap_cons, ih]
          cases stdoutData f <;> simp

theorem readerLoop_stderrWrites (e : StreamEnd) :
    ∀ frames : List ProcessPayload,
      (readerLoop e frames).stderrWrites = (observed frames).filterMap stderrData
  | [] => rfl
  | f :: rest => by
      cases ht : terminalResult f with
      | some r =>
          simp only [readerLoop, observed, ht, List.filterMap_cons]
          cases stderrData f <;> simp
      | none =>
          have ih := readerLoop_stderrWrites e rest
          simp only [readerLoop, observed, ht, List.filterMap_cons, ih]
          cases stderrData f <;> simp

/-! ## Claim theorems -/

/-- C1: for every process session created by Run or Attach, if the
downstream transport reaches end-of-stream or a decode failure before any
frame carrying an exit status or an error string has been observed, then
Wait returns the error "connection closed before exit status received". -/
theorem wait_errors_when_stream_ends_early
    (handle : String) (spec : ProcessSpec) (apid pid : Nat) (e : StreamEnd)
    (f : ProcessPayload) (rest : List ProcessPayload)
    (hid : f.processId = some pid)
    (hnt : ∀ g ∈ f :: rest, g.error = none ∧ g.exitStatus = none) :
    ∃ out : SessionOutcome,
      (Run handle spec (f :: rest) e).2 = Except.ok (pid, out) ∧
      Attach handle apid (f :: rest) e = Except.ok (pid, out) ∧
      out.waitResult = Except.error connClosedMsg := by
  refine ⟨readerLoop e (f :: rest), ?_, ?_, readerLoop_closed e (f :: rest) hnt⟩
  · simp [Run, processSession, hid]
  · simp [Attach, processSession, hid]

theorem wait_errors_when_stream_ends_early_witness :
    ∃ out : SessionOutcome,
      (Run "foo-handle" { path := "lol", args := ["arg1", "arg2"], dir := "/some/dir" }
        [{ processId := some 42 },
         { processId := some 42, source := some Source.stdout, data := some "stdout data" },
         { processId := some 42, source := some Source.stderr, data := some "stderr data" }]
        StreamEnd.eof).2 = Except.ok (42, out) ∧
      Attach "foo-handle" 42
        [{ processId := some 42 },
         { processId := some 42, source := some Source.stdout, data := some "stdout data" },
         { processId := some 42, source := some Source.stderr, data := some "stderr data" }]
        StreamEnd.eof = Except.ok (42, out) ∧
      out.waitResult = Except.error connClosedMsg :=
  wait_errors_when_stream_ends_early "foo-handle"
    { path := "lol", args := ["arg1", "arg2"], dir := "/some/dir" } 42 42 StreamEnd.eof
    { processId := some 42 }
    [{ processId := some 42, source := some Source.stdout, data := some "stdout data" },
     { processId := some 42, source := some Source.stderr, data := some "stderr data" }]
    rfl (by decide)

/-- C2: for every process session created by Run or Attach, a downstream
frame carrying an error string E observed after the session's id arrived
makes Run/Attach itself succeed while Wait returns the error E (so its
message contains E verbatim). -/
theorem wait_surfaces_remote_error
    (handle : String) (spec : ProcessSpec) (apid pid : Nat) (e : StreamEnd)
    (f : ProcessPayload) (mid post : List ProcessPayload)
    (ef : ProcessPayload) (msg : String)
    (hid : f.processId = some pid)
    (hnt : ∀ g ∈ f :: mid, g.error = none ∧ g.exitStatus = none)
    (herr : ef.error = some msg) :
    ∃ out : SessionOutcome,
      (Run handle spec ((f :: mid) ++ ef :: post) e).2 = Except.ok (pid, out) ∧
      Attach handle apid ((f :: mid) ++ ef :: post) e = Except.ok (pid, out) ∧
      out.waitResult = Except.error msg := by
  refine ⟨readerLoop e ((f :: mid) ++ ef :: post), ?_, ?_,
    readerLoop_error_frame e (f :: mid) ef post msg hnt herr⟩
  · simp [Run, processSession, hid]
  · simp [Attach, processSession, hid]

theorem wait_surfaces_remote_error_witness :
    ∃ out : SessionOutcome,
      (Run "foo-handle" { path := "lol", args := ["arg1", "arg2"], dir := "/some/dir" }
        (({ processId := some 42 } ::
          [{ processId := some 42, source := some Source.stdout, data := some "stdout data" },
           { processId := some 42, source := some Source.stderr, data := some "stderr data" }]) ++
          { processId := some 42, error := some "oh no!" } :: [])
        StreamEnd.eof).2 = Except.ok (42, out) ∧
      Attach "foo-handle" 42
        (({ processId := some 42 } ::
          [{ processId := some 42, source := some Source.stdout, data := some "stdout data" },
           { processId := some 42, source := some Source.stderr, data := some "stderr data" }]) ++
          { processId := some 42, error := some "oh no!" } :: [])
        StreamEnd.eof = Except.ok (42, out) ∧
      out.waitResult = Except.error "oh no!" :=
  wait_surfaces_remote_error "foo-handle"
    { path := "lol", args := ["arg1", "arg2"], dir := "/some/dir" } 42 42 StreamEnd.eof
    { processId := some 42 }
    [{ processId := some 42, source := some Source.stdout, data := some "stdout data" },
     { processId := some 42, source := some Source.stderr, data := some "stderr data" }]
    [] { processId := some 42, error := some "oh no!" } "oh no!"
    rfl (by decide) rfl

/-- C3: Signal(terminate) sends exactly the one upstream frame carrying the
process id and the terminate discriminator (likewise Signal(kill)), and a
session whose server then sends exit status 3 resolves Wait with (3, nil). -/
theorem signal_sends_one_frame_then_wait_exit (pid : Nat) (e : StreamEnd) :
    signalFrames pid Signal.terminate =
      [{ processId := some pid, signal := some Signal.terminate }] ∧
    signalFrames pid Signal.kill =
      [{ processId := some pid, signal := some Signal.kill }] ∧
    (Run "foo-handle" emptyProcessSpec
      [{ processId := some pid }, { processId := some pid, exitStatus := some 3 }] e).2 =
      Except.ok (pid, ⟨[], [], Except.ok 3⟩) :=
  ⟨rfl, rfl, rfl⟩

/-- C4: when the caller's stdin reader ends with an error, the upstream
stdin writer sends only the stdin frames for the chunks read so far and
never a zero-length EOF-marker frame. -/
theorem stdin_error_sends_no_eof_marker (pid : Nat) (chunks : List String)
    (hne : ∀ c ∈ chunks, c ≠ "") :
    stdinWriter pid chunks StdinEnd.readError = chunks.map (stdinFrame pid) ∧
    ∀ fr ∈ stdinWriter pid chunks StdinEnd.readError, fr.data ≠ some "" := by
  refine ⟨rfl, ?_⟩
  intro fr hfr
  simp only [stdinWriter, List.mem_map] at hfr
  obtain ⟨c, hc, rfl⟩ := hfr
  simpa [stdinFrame] using hne c hc

theorem stdin_error_sends_no_eof_marker_witness :
    stdinWriter 42 ["stdin data"] StdinEnd.readError = ["stdin data"].map (stdinFrame 42) ∧
    ∀ fr ∈ stdinWriter 42 ["stdin data"] StdinEnd.readError, fr.data ≠ some "" :=
  stdin_error_sends_no_eof_marker 42 ["stdin data"] (by decide)

/-- C5: for every session created by Run or Attach, each decoded stdout
frame's payload is written to the stdout sink and the writes occur in the
decoded order; symmetrically for stderr. -/
theorem stdio_written_in_order
    (handle : String) (spec : ProcessSpec) (apid pid : Nat) (e : StreamEnd)
    (f : ProcessPayload) (rest : List ProcessPayload)
    (hid : f.processId = some pid) :
    ∃ out : SessionOutcome,
      (Run handle spec (f :: rest) e).2 = Except.ok (pid, out) ∧
      Attach handle apid (f :: rest) e = Except.ok (pid, out) ∧
      out.stdoutWrites = (observed (f :: rest)).filterMap stdoutData ∧
      out.stderrWrites = (observed (f :: rest)).filterMap stderrData := by
  refine ⟨readerLoop e (f :: rest), ?_, ?_,
    readerLoop_stdoutWrites e (f :: rest), readerLoop_stderrWrites e (f :: rest)⟩
  · simp [Run, processSession, hid]
  · simp [Attach, processSession, hid]

theorem stdio_written_in_order_witness :
    ∃ out : SessionOutcome,
      (Run "foo-handle" { path := "lol", args := ["arg1", "arg2"], dir := "/some/dir" }
        [{ processId := some 42 },
         { processId := some 42, source := some Source.stdout, data := some "stdout data" },
         { processId := some 42, source := some Source.stderr, data := some "stderr data" },
         { processId := some 42, source := some Source.stdout, data := some "roundtripped stdin data" },
         { processId := some 42, exitStatus := some 3 }]
        StreamEnd.eof).2 = Except.ok (42, out) ∧
      Attach "foo-handle" 42
        [{ processId := some 42 },
         { processId := some 42, source := some Source.stdout, data := some "stdout data" },
         { processId := some 42, source := some Source.stderr, data := some "stderr data" },
         { processId := some 42, source := some Source.stdout, data := some "roundtripped stdin data" },
         { processId := some 42, exitStatus := some 3 }]
        StreamEnd.eof = Except.ok (42, out) ∧
      out.stdoutWrites =
        (observed
          [{ processId := some 42 },
           { processId := some 42, source := some Source.stdout, data := some "stdout data" },
           { processId := some 42, source := some Source.stderr, data := some "stderr data" },
           { processId := some 42, source := some Source.stdout, data := some "roundtripped stdin data" },
           { processId := some 42, exitStatus := some 3 }]).filterMap stdoutData ∧
      out.stderrWrites =
        (observed
          [{ processId := some 42 },
           { processId := some 42, source := some Source.stdout, data := some "stdout data" },
           { processId := some 42, source := some Source.stderr, data := some "stderr data" },
           { processId := some 42, source := some Source.stdout, data := some "roundtripped stdin data" },
           { processId := some 42, exitStatus := some 3 }]).filterMap stderrData :=
  stdio_written_in_order "foo-handle"
    { path := "lol", args := ["arg1", "arg2"], dir := "/some/dir" } 42 42 StreamEnd.eof
    { processId := some 42 }
    [{ processId := some 42, source := some Source.stdout, data := some "stdout data" },
     { processId := some 42, source := some Source.stderr, data := some "stderr data" },
     { processId := some 42, source := some Source.stdout, data := some "roundtripped stdin data" },
     { processId := some 42, exitStatus := some 3 }]
    rfl

/-- C6: a non-2xx response with status C and raw body B makes a dispatcher
operation return the structured error {C, B}; in particular Destroy against
such a reply. -/
theorem non2xx_returns_structured_error (r : HttpResponse)
    (h : is2xx r.status = false) :
    checkStatus r = some ⟨r.status, r.body⟩ ∧
    ∀ handle : String, Destroy handle r = some ⟨r.status, r.body⟩ := by
  exact ⟨by simp [checkStatus, h], fun handle => by simp [Destroy, checkStatus, h]⟩

theorem non2xx_returns_structured_error_witness :
    checkStatus ⟨423, "some error"⟩ = some ⟨423, "some error"⟩ ∧
    ∀ handle : String, Destroy handle ⟨423, "some error"⟩ = some ⟨423, "some error"⟩ :=
  non2xx_returns_structured_error ⟨423, "some error"⟩ (by decide)

/-- C7: NetOut with the zero-value rule encodes absent networks, ports and
icmps, log=false and protocol ALL. -/
theorem netout_zero_rule_encoding (handle : String) :
    NetOut handle zeroNetOutRule = Except.ok
      { handle := some handle
      , networks := none
      , ports := none
      , protocol := some NetOutProtocol.all
      , icmps := none
      , log := some false } := rfl

/-- C8: NetOut with a protocol value outside the enumerated set (such as
44) fails with the error message "invalid protocol"; the `Except.error`
result means no request message exists to be sent to the server. -/
theorem netout_invalid_protocol (handle : String) (rule : NetOutRule)
    (h : 5 ≤ rule.protocol) :
    NetOut handle rule = Except.error "invalid protocol" := by
  obtain ⟨m, hm⟩ : ∃ m, rule.protocol = m + 5 := ⟨rule.protocol - 5, by omega⟩
  have hc : convertProtocol rule.protocol = none := by
    rw [hm]; exact convertProtocol_out_of_range m
  simp [NetOut, hc]

theorem netout_invalid_protocol_witness :
    NetOut "foo-handle" { zeroNetOutRule with protocol := 44 } =
      Except.error "invalid protocol" :=
  netout_invalid_protocol "foo-handle" { zeroNetOutRule with protocol := 44 } (by decide)

/-- C9: each limits set operation returns exactly the field values decoded
from the server's response, not the values the caller passed: the request
message carries the caller's values while the result is built only from the
response (e.g. requesting memory 42 against a response of 40 returns 40). -/
theorem limits_set_returns_response_values
    (handle : String)
    (ml : MemoryLimits) (cl : CPULimits) (bl : BandwidthLimits) (dl : DiskLimits)
    (mr : LimitMemoryResponse) (cr : LimitCpuResponse)
    (br : LimitBandwidthResponse) (dr : LimitDiskResponse) :
    (LimitMemory handle ml mr).2 = ⟨mr.limitInBytes.getD 0⟩ ∧
    (LimitCPU handle cl cr).2 = ⟨cr.limitInShares.getD 0⟩ ∧
    (LimitBandwidth handle bl br).2 = ⟨br.rate.getD 0, br.burst.getD 0⟩ ∧
    (LimitDisk handle dl dr).2 =
      ⟨dr.blockSoft.getD 0, dr.blockHard.getD 0, dr.inodeSoft.getD 0,
       dr.inodeHard.getD 0, dr.byteSoft.getD 0, dr.byteHard.getD 0⟩ ∧
    (LimitMemory "foo" ⟨42⟩ ⟨some 40⟩).1.limitInBytes = some 42 ∧
    (LimitMemory "foo" ⟨42⟩ ⟨some 40⟩).2 = ⟨40⟩ ∧
    (LimitDisk "foo" ⟨42, 42, 42, 42, 42, 42⟩
      ⟨some 3, some 4, some 7, some 8, some 11, some 12⟩).2 =
      ⟨3, 4, 7, 8, 11, 12⟩ :=
  ⟨rfl, rfl, rfl, rfl, rfl, rfl, rfl⟩

/-- C10: the serialized RunRequest body always contains a user field (the
empty string when the spec leaves the user unspecified) and always contains
an rlimits record (the empty record when no limits are given). -/
theorem run_request_always_has_user_and_rlimits (handle : String) (spec : ProcessSpec) :
    runRequestJson (buildRunRequest handle spec) =
      Json.jobj (runRequestFields (buildRunRequest handle spec)) ∧
    ("user", Json.jstr spec.user) ∈ runRequestFields (buildRunRequest handle spec) ∧
    ("rlimits", rlimitsJson spec.limits) ∈ runRequestFields (buildRunRequest handle spec) ∧
    ("user", Json.jstr "") ∈ runRequestFields (buildRunRequest "foo-handle" emptyProcessSpec) ∧
    ("rlimits", Json.jobj []) ∈ runRequestFields (buildRunRequest "foo-handle" emptyProcessSpec) := by
  refine ⟨rfl, ?_, ?_, ?_, ?_⟩
  · simp [runRequestFields, buildRunRequest, optField]
  · simp [runRequestFields, buildRunRequest, optField]
  · simp [runRequestFields, buildRunRequest, emptyProcessSpec, optField]
  · simp [runRequestFields, buildRunRequest, emptyProcessSpec, optField,
      rlimitsJson, emptyResourceLimits]
